import Mathlib

/-!
Verification of the WakeGuard web drowsiness detector
(`wakeguard-web/app.js`) against its natural-language specification.

The file shallowly embeds the detection logic of `app.js`:

* the geometry module (`distance`, `calculateEAR`) over real-valued
  normalized landmark coordinates (JS IEEE-754 doubles are idealized as
  reals; the one place where IEEE behaviour matters — division by a zero
  horizontal distance, which yields `Infinity` or `NaN`, both of which
  compare `false` against the threshold — is modelled explicitly in
  `earLowObserved` below);
* the per-frame state machine of `onResults` (`closedEyeCounter`,
  `alarmOn`, `triggerAlarm`, `stopAlarm`), with alarm transitions emitted
  as events;
* the SMS cooldown logic of `sendSmsAlert` (`lastSmsTime`), with the
  wall-clock time and the success of the HTTP request as external inputs;
* `stopDetection` and the settings-save handler.

DOM/UI mutations (status badge, canvas drawing, CSS classes) carry no
detection state and are not modelled; the Web Audio alarm is abstracted
to a boolean `audioOn` (true while the repeating beep interval is
installed).
-/

namespace WakeGuard

/-! ## Configuration (the `CONFIG` object of `app.js`) -/

namespace CONFIG

/-- `CONFIG.EAR_THRESHOLD = 0.22`. -/
noncomputable def EAR_THRESHOLD : ℝ := 0.22

/-- `CONFIG.CONSEC_FRAMES_THRESHOLD = 20`. -/
def CONSEC_FRAMES_THRESHOLD : ℕ := 20

/-- `CONFIG.SMS_COOLDOWN_MS = 60000` (milliseconds). -/
def SMS_COOLDOWN_MS : ℤ := 60000

end CONFIG

/-! ## Geometry module -/

/-- A normalized 2-D landmark point, as produced by the face-mesh model. -/
structure Point where
  x : ℝ
  y : ℝ

/-- `distance(p1, p2)`: Euclidean distance,
`Math.sqrt(Math.pow(p1.x - p2.x, 2) + Math.pow(p1.y - p2.y, 2))`. -/
noncomputable def distance (p1 p2 : Point) : ℝ :=
  Real.sqrt ((p1.x - p2.x) ^ 2 + (p1.y - p2.y) ^ 2)

/-- The ordered six-point eye landmark subset fed to `calculateEAR`. -/
def EyeSix : Type := Fin 6 → Point

/-- `calculateEAR(eyeLandmarks)`:
`A = distance(eye[1], eye[5])`, `B = distance(eye[2], eye[4])`,
`C = distance(eye[0], eye[3])`, result `(A + B) / (2.0 * C)`.
(For `C ≠ 0` this is the JS value; for `C = 0` JS produces
`Infinity`/`NaN`, which this real-valued quotient does not represent —
the degenerate case is handled in `earLowObserved`.) -/
noncomputable def calculateEAR (eye : EyeSix) : ℝ :=
  (distance (eye 1) (eye 5) + distance (eye 2) (eye 4)) /
    (2 * distance (eye 0) (eye 3))

/-- The averaged EAR of `onResults`: `(rightEAR + leftEAR) / 2`. -/
noncomputable def avgEAR (rightEye leftEye : EyeSix) : ℝ :=
  (calculateEAR rightEye + calculateEAR leftEye) / 2

/-- The truth value of the JS test `avgEAR < CONFIG.EAR_THRESHOLD` in
`onResults`.  In IEEE-754 arithmetic a zero horizontal distance
`distance(eye[0], eye[3]) = 0` makes the corresponding EAR `Infinity`
(numerator positive) or `NaN` (numerator zero); the average then is
`Infinity` or `NaN` as well, and both satisfy `x < 0.22 = false`.  So the
test is true exactly when both horizontal distances are non-zero and the
real-valued average is below the threshold. -/
def earLowObserved (rightEye leftEye : EyeSix) : Prop :=
  distance (rightEye 0) (rightEye 3) ≠ 0 ∧
  distance (leftEye 0) (leftEye 3) ≠ 0 ∧
  avgEAR rightEye leftEye < CONFIG.EAR_THRESHOLD

/-! ## Detection state and alarm transitions -/

/-- The mutable detection state of `app.js` that the per-frame state
machine reads and writes: `closedEyeCounter`, `alarmOn`, and whether the
repeating Web Audio beep is installed (`alarmInterval !== null`). -/
structure DetState where
  closedEyeCounter : ℕ
  alarmOn : Bool
  audioOn : Bool
deriving DecidableEq, Repr

/-- Alarm transition events: the spec's `alarm_started` / `alarm_stopped`. -/
inductive Event where
  | alarmStarted
  | alarmStopped
deriving DecidableEq, Repr

/-- `triggerAlarm()`: if not already alarmed, set `alarmOn`, start the
audio cue, and (via `sendSmsAlert`) attempt the SMS — an `alarmStarted`
event; otherwise a no-op. -/
def triggerAlarm (st : DetState) : DetState × List Event :=
  if st.alarmOn then (st, [])
  else ({ st with alarmOn := true, audioOn := true }, [Event.alarmStarted])

/-- `stopAlarm()`: if alarmed, clear `alarmOn` and stop the audio cue —
an `alarmStopped` event; otherwise a no-op. -/
def stopAlarm (st : DetState) : DetState × List Event :=
  if st.alarmOn then ({ st with alarmOn := false, audioOn := false }, [Event.alarmStopped])
  else (st, [])

/-- The face-detected branch of `onResults` (lines 298–310), with the
boolean outcome of `avgEAR < CONFIG.EAR_THRESHOLD` as input:
increment `closedEyeCounter` when low, else reset it to 0; then
`triggerAlarm()` when the counter reaches
`CONFIG.CONSEC_FRAMES_THRESHOLD`, else `stopAlarm()`. -/
def stepFace (st : DetState) (earBelow : Bool) : DetState × List Event :=
  let c := if earBelow then st.closedEyeCounter + 1 else 0
  let st1 := { st with closedEyeCounter := c }
  if CONFIG.CONSEC_FRAMES_THRESHOLD ≤ c then triggerAlarm st1 else stopAlarm st1

/-- The no-face branch of `onResults` (lines 333–339): it only updates
DOM elements (`earValueElement`, the status badge); `closedEyeCounter`
and `alarmOn` are not touched and no alarm call is made. -/
def stepNoFace (st : DetState) : DetState × List Event :=
  (st, [])

/-- One processed frame: either no face was detected, or a face was
detected with a given boolean outcome of the low-EAR test. -/
inductive FrameObs where
  | noFace
  | face (earBelow : Bool)
deriving DecidableEq, Repr

/-- One step of the `onResults` state machine. -/
def stepFrame (st : DetState) : FrameObs → DetState × List Event
  | FrameObs.noFace => stepNoFace st
  | FrameObs.face b => stepFace st b

open Classical in
/-- The full face-detected branch of `onResults` over landmark geometry:
`stepFace` driven by the IEEE truth value of the threshold test. -/
noncomputable def processFaceFrame (st : DetState) (rightEye leftEye : EyeSix) :
    DetState × List Event :=
  if earLowObserved rightEye leftEye then stepFace st true else stepFace st false

/-- The initial detection state: `closedEyeCounter = 0`, `alarmOn = false`,
no audio cue. -/
def initState : DetState :=
  { closedEyeCounter := 0, alarmOn := false, audioOn := false }

/-- The detection state after `n` consecutive face-detected frames whose
averaged EAR is below the threshold, starting from `initState`. -/
def lowState : ℕ → DetState
  | 0 => initState
  | n + 1 => (stepFace (lowState n) true).1

/-- The events emitted on the `(n+1)`-th frame of that constant low-EAR
stream (the frame taking `lowState n` to `lowState (n+1)`). -/
def lowFrameEvents (n : ℕ) : List Event :=
  (stepFace (lowState n) true).2

/-! ## SMS notifier (`sendSmsAlert`) -/

/-- The notifier state: `lastSmsTime`, initially `0` (the epoch), updated
to `Date.now()` only when the HTTP request succeeds. -/
structure SmsState where
  lastSmsTime : ℤ
deriving DecidableEq, Repr

/-- `sendSmsAlert()`, with the wall clock `now = Date.now()` and the
success of the `fetch` (`response.ok`) as external inputs.  Returns the
new state and whether an outbound attempt was made:
if `now - lastSmsTime < CONFIG.SMS_COOLDOWN_MS` the attempt is skipped;
otherwise the request is attempted, and `lastSmsTime := now` only on
success (a failure is logged and leaves the state unchanged). -/
def sendSmsAlert (st : SmsState) (now : ℤ) (sendOk : Bool) : SmsState × Bool :=
  if now - st.lastSmsTime < CONFIG.SMS_COOLDOWN_MS then (st, false)
  else if sendOk then ({ lastSmsTime := now }, true) else (st, true)

/-! ## Session stop (`stopDetection`) -/

/-- The combined mutable state touched by `stopDetection`. -/
structure AppState where
  det : DetState
  sms : SmsState
deriving DecidableEq, Repr

/-- `stopDetection()` (lines 403–422): calls `stopAlarm()` and resets
`closedEyeCounter` to 0; the remaining statements stop the camera and
update the UI.  `lastSmsTime` is not touched. -/
def stopDetection (st : AppState) : AppState × List Event :=
  let r := stopAlarm st.det
  ({ det := { r.1 with closedEyeCounter := 0 }, sms := st.sms }, r.2)

/-! ## Settings save (the `saveSettingsBtn` click handler) -/

/-- Outcome shown in `settingsStatus`: error or success. -/
inductive SettingsStatus where
  | error
  | success
deriving DecidableEq, Repr

/-- The persisted/settable recipient state: `CONFIG.SMS_RECIPIENT` and the
`localStorage` entry `wakeguard_sms_recipient`. -/
structure SettingsState where
  smsRecipient : String
  storedRecipient : Option String
deriving DecidableEq, Repr

/-- JS `String.prototype.trim()`: strip whitespace from both ends.
Modelled structurally over the character list so that it evaluates on
concrete inputs. -/
def jsTrim (s : String) : String :=
  String.mk (((s.data.dropWhile Char.isWhitespace).reverse.dropWhile
    Char.isWhitespace).reverse)

/-- JS `.length` (UTF-16 units; equal to the character count for the
BMP inputs handled here). -/
def jsLength (s : String) : ℕ := s.data.length

/-- JS `.startsWith('+')`. -/
def startsWithPlus (s : String) : Bool :=
  match s.data with
  | '+' :: _ => true
  | _ => false

/-- The `saveSettingsBtn` click handler (lines 503–529): trim the input;
reject (error status, nothing persisted) when empty (`!newRecipient`) or
shorter than 10 characters; otherwise prefix `+` when missing and persist
to both `CONFIG.SMS_RECIPIENT` and `localStorage`. -/
def saveSettings (input : String) (st : SettingsState) :
    SettingsState × SettingsStatus :=
  let newRecipient := jsTrim input
  if newRecipient = "" ∨ jsLength newRecipient < 10 then (st, SettingsStatus.error)
  else
    let formattedNumber :=
      if startsWithPlus newRecipient then newRecipient else "+" ++ newRecipient
    ({ smsRecipient := formattedNumber, storedRecipient := some formattedNumber },
      SettingsStatus.success)

/-! ## Concrete test inputs -/

/-- A concrete wide-open eye: horizontal pair `(0,0)`–`(1,0)`, both
vertical pairs `(0,0)`–`(0,1)`; all three distances are 1 and the EAR
is 1. -/
noncomputable def openEye : EyeSix := fun i =>
  if i.val = 3 then { x := 1, y := 0 }
  else if i.val = 4 ∨ i.val = 5 then { x := 0, y := 1 }
  else { x := 0, y := 0 }

/-- A degenerate eye with all six landmarks collapsed to the origin: its
horizontal distance is 0. -/
noncomputable def degenEye : EyeSix := fun _ => { x := 0, y := 0 }

/-! ## Helper lemmas -/

/-- Characterization of one face-frame step: the new counter is the
incremented/reset value, the new alarm and audio flags are determined by
comparing it with the threshold, and the emitted events record exactly
the alarm transitions. -/
theorem stepFace_eq (st : DetState) (b : Bool) :
    stepFace st b =
      ({ closedEyeCounter := if b then st.closedEyeCounter + 1 else 0,
         alarmOn := decide (CONFIG.CONSEC_FRAMES_THRESHOLD ≤
           (if b then st.closedEyeCounter + 1 else 0)),
         audioOn := if CONFIG.CONSEC_FRAMES_THRESHOLD ≤
             (if b then st.closedEyeCounter + 1 else 0) then
           (if st.alarmOn then st.audioOn else true)
         else
           (if st.alarmOn then false else st.audioOn) },
       if CONFIG.CONSEC_FRAMES_THRESHOLD ≤ (if b then st.closedEyeCounter + 1 else 0) then
         (if st.alarmOn then [] else [Event.alarmStarted])
       else
         (if st.alarmOn then [Event.alarmStopped] else [])) := by
  cases hA : st.alarmOn <;>
    simp only [stepFace, triggerAlarm, stopAlarm, hA] <;>
    split <;> simp_all <;> split <;> simp_all

/-- Under a constant below-threshold stream the counter counts the frames
and the alarm/audio flags are on exactly from the threshold frame on. -/
theorem lowState_eq (n : ℕ) :
    lowState n =
      { closedEyeCounter := n,
        alarmOn := decide (CONFIG.CONSEC_FRAMES_THRESHOLD ≤ n),
        audioOn := decide (CONFIG.CONSEC_FRAMES_THRESHOLD ≤ n) } := by
  induction n with
  | zero => rfl
  | succ n ih =>
      rw [lowState, ih, stepFace_eq]
      by_cases h : CONFIG.CONSEC_FRAMES_THRESHOLD ≤ n + 1 <;>
        by_cases h' : CONFIG.CONSEC_FRAMES_THRESHOLD ≤ n
      · simp [h, h']
      · simp [h, h']
      · exact absurd (Nat.le_succ_of_le h') h
      · simp [h, h']

/-! ## Claims -/

/-- Claim C1: starting in AWAKE with `closedEyeCounter = 0`, a constant
stream of face-detected frames with averaged EAR below the threshold
emits `alarm_started` exactly on the `CONFIG.CONSEC_FRAMES_THRESHOLD`-th
frame (frame `n + 1` emits it iff `n + 1 = 20`) and the alarm flag is on
exactly from that frame onwards. -/
theorem C1_alarm_starts_exactly_on_threshold_frame :
    (∀ n : ℕ, lowFrameEvents n = [Event.alarmStarted] ↔
      n + 1 = CONFIG.CONSEC_FRAMES_THRESHOLD) ∧
    (∀ n : ℕ, (lowState n).alarmOn =
      decide (CONFIG.CONSEC_FRAMES_THRESHOLD ≤ n)) := by
  constructor
  · intro n
    rw [lowFrameEvents, lowState_eq, stepFace_eq]
    by_cases h : CONFIG.CONSEC_FRAMES_THRESHOLD ≤ n + 1 <;>
      by_cases h' : CONFIG.CONSEC_FRAMES_THRESHOLD ≤ n
    · simp [h, h']
      omega
    · simp [h, h']
      omega
    · exact absurd (Nat.le_succ_of_le h') h
    · simp [h, h']
      omega
  · intro n
    rw [lowState_eq]

/-- Counterexample to claim C3: a no-face frame does not reset
`closedEyeCounter` to 0 — at counter 5 it stays 5. -/
theorem C3_noface_does_not_reset_counter :
    ¬ ((stepFrame { closedEyeCounter := 5, alarmOn := false, audioOn := false }
        FrameObs.noFace).1.closedEyeCounter = 0) := by
  simp [stepFrame, stepNoFace]

/-- Claim C3 amended: a no-face frame leaves the whole detection state
(counter included) unchanged and emits no events. -/
theorem C3_noface_leaves_state_unchanged (st : DetState) :
    stepFrame st FrameObs.noFace = (st, []) := rfl

/-- Counterexample to claim C4: in ALARM, a single no-face frame does not
force a transition back to AWAKE — the alarm flag stays true. -/
theorem C4_noface_does_not_clear_alarm :
    ¬ ((stepFrame { closedEyeCounter := 20, alarmOn := true, audioOn := true }
        FrameObs.noFace).1.alarmOn = false) := by
  simp [stepFrame, stepNoFace]

/-- Claim C4 amended: while in ALARM, a no-face frame leaves the alarm
active (and emits no `alarm_stopped`); only a face-detected frame with a
sub-threshold counter clears it. -/
theorem C4_alarm_persists_on_noface (st : DetState) (h : st.alarmOn = true) :
    (stepFrame st FrameObs.noFace).1.alarmOn = true ∧
    (stepFrame st FrameObs.noFace).2 = [] := by
  exact ⟨h, rfl⟩

/-- Witness for the amended claim C4 at a concrete alarmed state. -/
theorem C4_alarm_persists_on_noface_witness :
    (stepFrame { closedEyeCounter := 20, alarmOn := true, audioOn := true }
      FrameObs.noFace).1.alarmOn = true :=
  (C4_alarm_persists_on_noface
    { closedEyeCounter := 20, alarmOn := true, audioOn := true } rfl).1

/-- Any modelled distance is non-negative. -/
theorem distance_nonneg (p q : Point) : 0 ≤ distance p q :=
  Real.sqrt_nonneg _

/-- The horizontal distance of the concrete open eye is 1. -/
theorem distance_openEye_horizontal : distance (openEye 0) (openEye 3) = 1 := by
  have h0 : openEye 0 = { x := 0, y := 0 } := rfl
  have h3 : openEye 3 = { x := 1, y := 0 } := rfl
  rw [h0, h3]
  norm_num [distance, Real.sqrt_one]

/-- The EAR of the concrete open eye is 1. -/
theorem calculateEAR_openEye : calculateEAR openEye = 1 := by
  have h0 : openEye 0 = { x := 0, y := 0 } := rfl
  have h1 : openEye 1 = { x := 0, y := 0 } := rfl
  have h2 : openEye 2 = { x := 0, y := 0 } := rfl
  have h3 : openEye 3 = { x := 1, y := 0 } := rfl
  have h4 : openEye 4 = { x := 0, y := 1 } := rfl
  have h5 : openEye 5 = { x := 0, y := 1 } := rfl
  rw [calculateEAR, h0, h1, h2, h3, h4, h5]
  norm_num [distance, Real.sqrt_one]

/-- The horizontal distance of the collapsed eye is 0. -/
theorem distance_degenEye_horizontal : distance (degenEye 0) (degenEye 3) = 0 := by
  norm_num [distance, degenEye, Real.sqrt_zero]

/-- Claim C2: on a face-detected frame whose averaged EAR is not below
the threshold (the low-EAR test `avgEAR < CONFIG.EAR_THRESHOLD` being
strict), the counter resets to 0 and the alarm flag ends false; when the
state was ALARM the frame emits `alarm_stopped` — recovery happens on
that single frame, with no hysteresis. -/
theorem C2_high_ear_resets_and_clears_alarm (st : DetState) (r l : EyeSix)
    (h : ¬ avgEAR r l < CONFIG.EAR_THRESHOLD) :
    processFaceFrame st r l = stepFace st false ∧
    (processFaceFrame st r l).1.closedEyeCounter = 0 ∧
    (processFaceFrame st r l).1.alarmOn = false ∧
    (st.alarmOn = true → (processFaceFrame st r l).2 = [Event.alarmStopped]) := by
  have hne : ¬ earLowObserved r l := fun hc => h hc.2.2
  have hp : processFaceFrame st r l = stepFace st false := by
    rw [processFaceFrame, if_neg hne]
  refine ⟨hp, ?_, ?_, fun hA => ?_⟩
  · rw [hp, stepFace_eq]
    simp
  · rw [hp, stepFace_eq]
    simp [CONFIG.CONSEC_FRAMES_THRESHOLD]
  · rw [hp, stepFace_eq]
    simp [CONFIG.CONSEC_FRAMES_THRESHOLD, hA]

/-- Witness for claim C2 at a concrete alarmed state and a concrete open
eye (averaged EAR 1 ≥ 0.22): the counter resets and `alarm_stopped` is
emitted. -/
theorem C2_high_ear_resets_and_clears_alarm_witness :
    (processFaceFrame { closedEyeCounter := 3, alarmOn := true, audioOn := true }
      openEye openEye).1.closedEyeCounter = 0 ∧
    (processFaceFrame { closedEyeCounter := 3, alarmOn := true, audioOn := true }
      openEye openEye).2 = [Event.alarmStopped] := by
  have h : ¬ avgEAR openEye openEye < CONFIG.EAR_THRESHOLD := by
    rw [avgEAR, calculateEAR_openEye]
    norm_num [CONFIG.EAR_THRESHOLD]
  have h2 := C2_high_ear_resets_and_clears_alarm
    { closedEyeCounter := 3, alarmOn := true, audioOn := true } openEye openEye h
  exact ⟨h2.2.1, h2.2.2.2 rfl⟩

/-- Counterexample to claim C5: on a face frame whose eyes have zero
horizontal distance the counter is not left unchanged — at counter 5 the
frame resets it (the IEEE quotient is `Infinity`/`NaN`, which fails the
low-EAR test, so the frame is treated as a not-low frame). -/
theorem C5_zero_horizontal_does_not_skip_counter :
    ¬ ((processFaceFrame { closedEyeCounter := 5, alarmOn := false, audioOn := false }
        degenEye degenEye).1.closedEyeCounter = 5) := by
  have hne : ¬ earLowObserved degenEye degenEye := fun hc =>
    hc.1 distance_degenEye_horizontal
  rw [processFaceFrame, if_neg hne, stepFace_eq]
  simp

/-- Claim C5 amended: a face frame with a zero horizontal eye distance
(either eye) raises no fault — the IEEE comparison is simply false — and
is processed exactly like a frame whose EAR is at/above threshold: the
counter is reset to 0 (not left unchanged). -/
theorem C5_degenerate_frame_treated_as_not_low (st : DetState) (r l : EyeSix)
    (h : distance (r 0) (r 3) = 0 ∨ distance (l 0) (l 3) = 0) :
    processFaceFrame st r l = stepFace st false ∧
    (processFaceFrame st r l).1.closedEyeCounter = 0 := by
  have hne : ¬ earLowObserved r l := by
    intro hc
    rcases h with h | h
    · exact hc.1 h
    · exact hc.2.1 h
  have hp : processFaceFrame st r l = stepFace st false := by
    rw [processFaceFrame, if_neg hne]
  refine ⟨hp, ?_⟩
  rw [hp, stepFace_eq]
  simp

/-- Witness for the amended claim C5 at a concrete state and the
collapsed eye. -/
theorem C5_degenerate_frame_treated_as_not_low_witness :
    (processFaceFrame { closedEyeCounter := 5, alarmOn := false, audioOn := false }
      degenEye degenEye).1.closedEyeCounter = 0 :=
  (C5_degenerate_frame_treated_as_not_low
    { closedEyeCounter := 5, alarmOn := false, audioOn := false }
    degenEye degenEye (Or.inl distance_degenEye_horizontal)).2

/-- Claim C9: `calculateEAR` computes
`(dist(p1,p5) + dist(p2,p4)) / (2 · dist(p0,p3))` with `dist` the
Euclidean distance, and whenever the horizontal distance is non-zero the
result is non-negative (finiteness is automatic in the real-valued
model). -/
theorem C9_calculateEAR_formula_and_nonneg (eye : EyeSix) :
    calculateEAR eye =
      (distance (eye 1) (eye 5) + distance (eye 2) (eye 4)) /
        (2 * distance (eye 0) (eye 3)) ∧
    (distance (eye 0) (eye 3) ≠ 0 → 0 ≤ calculateEAR eye) := by
  refine ⟨rfl, fun _ => ?_⟩
  rw [calculateEAR]
  exact div_nonneg (add_nonneg (distance_nonneg _ _) (distance_nonneg _ _))
    (mul_nonneg (by norm_num) (distance_nonneg _ _))

/-- Witness for claim C9 at the concrete open eye, whose horizontal
distance is 1 ≠ 0. -/
theorem C9_calculateEAR_formula_and_nonneg_witness :
    0 ≤ calculateEAR openEye :=
  (C9_calculateEAR_formula_and_nonneg openEye).2
    (by rw [distance_openEye_horizontal]; norm_num)

/-- Claim C10: after any face-detected frame the alarm flag is on exactly
when the updated counter has reached `CONFIG.CONSEC_FRAMES_THRESHOLD`,
regardless of the prior state. -/
theorem C10_alarm_iff_counter_at_threshold (st : DetState) (b : Bool) :
    (stepFace st b).1.alarmOn = true ↔
      CONFIG.CONSEC_FRAMES_THRESHOLD ≤ (stepFace st b).1.closedEyeCounter := by
  rw [stepFace_eq]
  simp

/-- Counterexample to claim C6: when the first attempt fails,
`lastSmsTime` is not updated, so a second `alarm_started` only 1 ms later
— well inside the 60000 ms cooldown window — makes a second outbound
attempt: two attempts within one window.  (From `lastSmsTime = 0`, the
first alarm at `t = 60000` attempts and fails; the second at
`t = 60001` attempts again.) -/
theorem C6_failed_attempt_does_not_start_cooldown :
    (sendSmsAlert { lastSmsTime := 0 } 60000 false).2 = true ∧
    (sendSmsAlert (sendSmsAlert { lastSmsTime := 0 } 60000 false).1 60001 false).2
      = true ∧
    (60001 : ℤ) - 60000 < CONFIG.SMS_COOLDOWN_MS := by
  refine ⟨?_, ?_, ?_⟩ <;> decide

/-- Claim C6 amended: an attempt is skipped unless the time since the
last *successful* notification is at least the cooldown, so two
`alarm_started` events within one cooldown window of each other produce
at most one outbound attempt provided the first attempt succeeds (a
failed attempt does not start the cooldown). -/
theorem C6_success_starts_cooldown (st : SmsState) (t1 t2 : ℤ) (ok2 : Bool)
    (h1 : CONFIG.SMS_COOLDOWN_MS ≤ t1 - st.lastSmsTime)
    (h2 : t2 - t1 < CONFIG.SMS_COOLDOWN_MS) :
    sendSmsAlert st t1 true = ({ lastSmsTime := t1 }, true) ∧
    (sendSmsAlert (sendSmsAlert st t1 true).1 t2 ok2).2 = false := by
  have hs : sendSmsAlert st t1 true = ({ lastSmsTime := t1 }, true) := by
    rw [sendSmsAlert, if_neg (not_lt.mpr h1)]
    rfl
  refine ⟨hs, ?_⟩
  rw [hs, sendSmsAlert, if_pos h2]

/-- Witness for the amended claim C6: from the epoch state a successful
send at `t = 60000` starts the cooldown and the attempt at `t = 60001`
is skipped. -/
theorem C6_success_starts_cooldown_witness :
    (sendSmsAlert { lastSmsTime := 0 } 60000 true).2 = true ∧
    (sendSmsAlert (sendSmsAlert { lastSmsTime := 0 } 60000 true).1 60001 true).2
      = false := by
  have h := C6_success_starts_cooldown { lastSmsTime := 0 } 60000 60001 true
    (by decide) (by decide)
  exact ⟨by rw [h.1], h.2⟩

/-- Counterexample to claim C7: `stopDetection` does not reset
`lastSmsTime` to the epoch — a stop with `lastSmsTime = 5` leaves it
at 5. -/
theorem C7_stop_does_not_reset_lastSmsTime :
    ¬ ((stopDetection
        { det := { closedEyeCounter := 3, alarmOn := true, audioOn := true },
          sms := { lastSmsTime := 5 } }).1.sms.lastSmsTime = 0) := by
  decide

/-- Claim C7 amended: stopping the session resets the counter to 0 and
the alarm flag to false, emits `alarm_stopped` and silences the audio cue
when currently alarmed — but leaves `lastSmsTime` unchanged rather than
resetting it to the epoch. -/
theorem C7_stop_resets_detection_state (st : AppState) :
    (stopDetection st).1.det.closedEyeCounter = 0 ∧
    (stopDetection st).1.det.alarmOn = false ∧
    (st.det.alarmOn = true →
      (stopDetection st).2 = [Event.alarmStopped] ∧
      (stopDetection st).1.det.audioOn = false) ∧
    (stopDetection st).1.sms = st.sms := by
  cases hA : st.det.alarmOn <;>
    simp [stopDetection, stopAlarm, hA]

/-- Witness for the amended claim C7 at a concrete alarmed state. -/
theorem C7_stop_resets_detection_state_witness :
    (stopDetection
      { det := { closedEyeCounter := 3, alarmOn := true, audioOn := true },
        sms := { lastSmsTime := 5 } }).2 = [Event.alarmStopped] ∧
    (stopDetection
      { det := { closedEyeCounter := 3, alarmOn := true, audioOn := true },
        sms := { lastSmsTime := 5 } }).1.det.closedEyeCounter = 0 := by
  have h := C7_stop_resets_detection_state
    { det := { closedEyeCounter := 3, alarmOn := true, audioOn := true },
      sms := { lastSmsTime := 5 } }
  exact ⟨(h.2.2.1 rfl).1, h.1⟩

/-- Claim C8: saving the recipient `"7780643862"` persists
`"+7780643862"` (to both the config and the stored copy) with a success
status, while any input whose trimmed form is shorter than 10 characters
is rejected with an error status and leaves the persisted state
untouched. -/
theorem C8_save_settings_normalizes_and_rejects :
    (∀ st : SettingsState, saveSettings "7780643862" st =
      ({ smsRecipient := "+7780643862", storedRecipient := some "+7780643862" },
        SettingsStatus.success)) ∧
    (∀ (input : String) (st : SettingsState), jsLength (jsTrim input) < 10 →
      saveSettings input st = (st, SettingsStatus.error)) := by
  constructor
  · intro st
    rfl
  · intro input st h
    rw [saveSettings, if_pos (Or.inr h)]

/-- Witness for claim C8: the short input `"123"` (trimmed length 3) is
rejected and persists nothing. -/
theorem C8_save_settings_normalizes_and_rejects_witness :
    saveSettings "123" { smsRecipient := "+917780643862", storedRecipient := none }
      = ({ smsRecipient := "+917780643862", storedRecipient := none },
        SettingsStatus.error) :=
  C8_save_settings_normalizes_and_rejects.2 "123"
    { smsRecipient := "+917780643862", storedRecipient := none } (by decide)

end WakeGuard
